import Mathlib

/-!
Verification of the surfboard API gateway (Go) against its specification.

The Go source is shallowly embedded: pure helpers become Lean functions,
and the request handler becomes a function from an explicit environment
(modelling the stdlib collaborators: url.Parse, the single-host reverse
proxy director, and the network transport) to a trace of its observable
effects.  Go maps are modelled as association lists with overwriting
assignment (mapSet); Go pointers, where the distinction between mutating
an object and returning a replacement matters (the callback chains), are
modelled by an explicit object store indexed by natural-number
references.
-/

namespace Surfboard

/-! ## Strings and segments

Paths are handled by the Go code via strings.Split(s, "/"); we model a
string's characters as a plain character list and re-implement the split
with the separator fixed at the slash, matching strings.Split for a
one-character separator (in particular: splitting the empty string
yields one empty segment, and a leading slash yields a leading empty
segment). -/

/-- Model of Go strings.Split(s, "/"): split a character list at every
slash, keeping empty segments. -/
def splitSlash : List Char → List (List Char)
  | [] => [[]]
  | c :: rest =>
    let r := splitSlash rest
    if c = '/' then [] :: r
    else
      match r with
      | [] => [[c]]
      | h :: t => (c :: h) :: t

/-- The slash-separated segments of a Go string. -/
def segsOf (s : String) : List (List Char) :=
  splitSlash s.toList

/-! ## Go maps as association lists

Go map assignment m[k] = v overwrites the binding for k if present and
otherwise adds one; lookup returns the unique binding.  An association
list whose keys stay distinct models this faithfully. -/

/-- Model of Go map assignment m[k] = v: overwrite the first binding for
k, or append one. -/
def mapSet {α : Type} : List (String × α) → String → α → List (String × α)
  | [], k, v => [(k, v)]
  | (k', v') :: rest, k, v =>
    if k' = k then (k, v) :: rest
    else (k', v') :: mapSet rest k v

/-- Model of Go map lookup m[k]. -/
def mapLookup {α : Type} : List (String × α) → String → Option α
  | [], _ => none
  | (k', v') :: rest, k => if k' = k then some v' else mapLookup rest k

/-- Whether k is among the keys of a modelled Go map. -/
def mapHasKey {α : Type} : List (String × α) → String → Bool
  | [], _ => false
  | (k', _) :: rest, k => k' = k || mapHasKey rest k

/-- Whether the keys of a modelled Go map are pairwise distinct (always
true of a map built by repeated mapSet from the empty map, as a real Go
map is). -/
def mapNodupKeys {α : Type} : List (String × α) → Bool
  | [] => true
  | (k, _) :: rest => !(mapHasKey rest k) && mapNodupKeys rest

/-! ## PathParamExtractor.Extract

Embedding of PathParamExtractor.Extract (src/unnamed/part_002 lines
13–38): split both paths on slashes; on a segment-count mismatch return
the (still empty) parameter map; otherwise walk the pattern segments by
index, and for each segment that starts with the ':' sigil bind the rest
of the segment (the name) to the request's same-position segment.
Literal segments are never compared. -/

/-- Whether a template segment is a capture segment: Go
strings.HasPrefix(patternSegment, ":"). -/
def isCaptureSeg (seg : List Char) : Bool :=
  match seg with
  | [] => false
  | c :: _ => c = ':'

/-- The indexed loop of Extract (lines 26–35): iterate over the pattern
segments with their index i, guard i against the request-segment count
(as the Go code does, redundantly under the equal-count guard), and bind
a capture segment's name (Go patternSegment[1:], i.e. the segment with
its leading sigil dropped) to requestSegments[i]. -/
def extractLoop (requestSegments : List (List Char)) :
    List (List Char) → Nat → List (String × String) → List (String × String)
  | [], _, params => params
  | seg :: rest, i, params =>
    extractLoop requestSegments rest (i + 1)
      (if i < requestSegments.length then
        if isCaptureSeg seg then
          mapSet params (String.mk (seg.drop 1)) (String.mk (requestSegments.getD i []))
        else params
      else params)

/-- PathParamExtractor.Extract (lines 13–38): on a segment-count
mismatch the params map, still empty, is returned; otherwise the
indexed loop fills it. -/
def extract (patternPath requestPath : String) : List (String × String) :=
  if (segsOf patternPath).length ≠ (segsOf requestPath).length then []
  else extractLoop (segsOf requestPath) (segsOf patternPath) 0 []

/-- Reformulation of the extraction loop that walks the two segment
lists in parallel; used to reason about Extract position by position. -/
def extractZip :
    List (List Char) → List (List Char) → List (String × String) → List (String × String)
  | [], _, params => params
  | _ :: _, [], params => params
  | seg :: ps, rseg :: rs, params =>
    extractZip ps rs
      (if isCaptureSeg seg then
        mapSet params (String.mk (seg.drop 1)) (String.mk rseg)
      else params)

/-- The captured name of a template segment, sigil stripped; none for a
literal segment. -/
def captureName (seg : List Char) : Option String :=
  if isCaptureSeg seg then some (String.mk (seg.drop 1)) else none

/-- All capture names of a template's segments, in order. -/
def captureNames (segs : List (List Char)) : List String :=
  segs.filterMap captureName

/-! ## Textual replacement (Go strings.Replace(s, old, new, -1)) -/

/-- Fuelled worker for strings.Replace with count -1: at each position
replace a non-overlapping occurrence of old and continue past it, else
keep one character.  A fuel of (length of s) suffices because the
gateway only ever calls this with old = ":" + name, which is nonempty,
so every step consumes at least one character of s. -/
def replaceAllFuel (old nw : List Char) : Nat → List Char → List Char
  | 0, s => s
  | fuel + 1, s =>
    match s with
    | [] => []
    | c :: rest =>
      if old.isPrefixOf (c :: rest) then
        nw ++ replaceAllFuel old nw fuel ((c :: rest).drop old.length)
      else
        c :: replaceAllFuel old nw fuel rest

/-- Model of Go strings.Replace(s, old, new, -1) for nonempty old. -/
def replaceAll (s old nw : List Char) : List Char :=
  replaceAllFuel old nw s.length s

/-! ## Data model (src/src/config.go) -/

/-- Endpoint (config.go): one configured route.  Headers and
query-parameter overrides are Go maps, modelled as association lists. -/
structure Endpoint where
  path : String
  method : String
  backend : String
  timeout : Int
  headers : List (String × String)
  queryParams : List (String × String)
  hasPathParams : Bool

/-- Endpoint.ExtractPathParams (config.go): extraction against the
endpoint's own template path. -/
def Endpoint.extractPathParams (e : Endpoint) (requestPath : String) :
    List (String × String) :=
  extract e.path requestPath

/-- The slice of a parsed net/url URL the handler reads; url.Parse
itself is a stdlib collaborator and is a parameter of the handler
environment. -/
structure URLModel where
  scheme : String
  host : String
  path : String
  deriving DecidableEq

/-- The inbound request as the handler reads it (r.Method, r.URL.Path). -/
structure InboundRequest where
  method : String
  path : String
  deriving DecidableEq

/-- The outbound backend request as the handler manipulates it: Go
req.Host, req.URL.Path, the URL query (the Query()/Set()/Encode()
round-trip is modelled as operations on one query map, eliding percent
encoding), the header map (MIME canonicalisation elided), and the
method. -/
structure OutboundRequest where
  method : String
  host : String
  path : String
  query : List (String × String)
  headers : List (String × String)
  deriving DecidableEq

/-- A backend response as the handler and its callbacks see it. -/
structure BackendResponse where
  statusCode : Nat
  headers : List (String × String)
  body : String
  deriving DecidableEq

def defaultOutboundRequest : OutboundRequest :=
  { method := "", host := "", path := "", query := [], headers := [] }

def defaultBackendResponse : BackendResponse :=
  { statusCode := 0, headers := [], body := "" }

/-! ## Pointers

Go pointer values become indices into a store of objects, so that
mutating the pointee and returning a different pointer remain
distinguishable — the distinction the callback chains depend on. -/

structure Store (α : Type) where
  objs : List α

def Store.get {α : Type} (s : Store α) (d : α) (r : Nat) : α :=
  s.objs.getD r d

def Store.set {α : Type} (s : Store α) (r : Nat) (v : α) : Store α :=
  ⟨s.objs.set r v⟩

/-- Allocate a fresh object; the new reference points at it. -/
def Store.alloc {α : Type} (s : Store α) (v : α) : Nat × Store α :=
  (s.objs.length, ⟨s.objs ++ [v]⟩)

/-- Model of RequestCallback (func(req *http.Request) *http.Request):
receives a pointer, may read and mutate the store, returns a pointer. -/
def RequestCallback : Type :=
  Nat → Store OutboundRequest → Nat × Store OutboundRequest

/-- Model of ResponseCallback
(func(resp *http.Response, req *http.Request) *http.Response). -/
def ResponseCallback : Type :=
  Nat → Store BackendResponse → InboundRequest → Nat × Store BackendResponse

/-- A callback that only mutates its argument object and returns the
same pointer — the shape of every callback in the repository's tests. -/
def mutateReq (f : OutboundRequest → OutboundRequest) : RequestCallback :=
  fun r s => (r, s.set r (f (s.get defaultOutboundRequest r)))

/-- A callback that allocates a fresh request and returns a pointer to
it, leaving its argument untouched (a replacing callback). -/
def replaceReq (v : OutboundRequest) : RequestCallback :=
  fun _ s => s.alloc v

/-- A response callback that only mutates its argument object. -/
def mutateResp (f : BackendResponse → BackendResponse) : ResponseCallback :=
  fun r s _ => (r, s.set r (f (s.get defaultBackendResponse r)))

/-- A response callback that returns a freshly allocated replacement. -/
def replaceResp (v : BackendResponse) : ResponseCallback :=
  fun _ s _ => s.alloc v

/-! ## Proxy (src/unnamed/part_002 lines 49–231) -/

/-- Proxy (lines 57–63); the telemetry pointer is modelled by whether it
is non-nil. -/
structure Proxy where
  endpoint : Endpoint
  debug : Bool
  preBackendCallbacks : List RequestCallback
  postBackendCallbacks : List ResponseCallback
  telemetryNonNil : Bool

/-- NewProxy (lines 66–74): empty callback lists. -/
def newProxy (endpoint : Endpoint) (debug : Bool) (telemetryNonNil : Bool) : Proxy :=
  { endpoint := endpoint, debug := debug, preBackendCallbacks := [],
    postBackendCallbacks := [], telemetryNonNil := telemetryNonNil }

/-- Proxy.AddPreBackendCallback (lines 77–79): append. -/
def Proxy.addPreBackendCallback (p : Proxy) (cb : RequestCallback) : Proxy :=
  { p with preBackendCallbacks := p.preBackendCallbacks ++ [cb] }

/-- Proxy.AddPostBackendCallback (lines 82–84): append. -/
def Proxy.addPostBackendCallback (p : Proxy) (cb : ResponseCallback) : Proxy :=
  { p with postBackendCallbacks := p.postBackendCallbacks ++ [cb] }

/-- One iteration of the path-parameter loop (lines 134–141): textually
replace every ":" + name occurrence in the accumulated backend path, and
set the parameter as a query parameter. -/
def paramStep (acc : List Char × List (String × String)) (kv : String × String) :
    List Char × List (String × String) :=
  (replaceAll acc.1 (':' :: kv.1.toList) kv.2.toList, mapSet acc.2 kv.1 kv.2)

/-- Lines 127–161 of the director: the handler's own request rewriting,
applied to the outbound request as the stdlib single-host director left
it (and after req.Host was set): if the endpoint has path parameters,
extract them from the inbound path and run the replace-and-query loop,
then force-set the endpoint's headers, then force-set the endpoint's
query parameters.  Go iterates the extracted-parameter map in
unspecified order; the model iterates in extraction order. -/
def directorTransform (e : Endpoint) (inboundPath : String) (req : OutboundRequest) :
    OutboundRequest :=
  let req :=
    if e.hasPathParams then
      let pathParams := e.extractPathParams inboundPath
      let acc := pathParams.foldl paramStep (req.path.toList, req.query)
      { req with path := String.mk acc.1, query := acc.2 }
    else req
  let req := { req with
    headers := e.headers.foldl
      (fun h (kv : String × String) => mapSet h kv.1 kv.2) req.headers }
  { req with
    query := e.queryParams.foldl
      (fun q (kv : String × String) => mapSet q kv.1 kv.2) req.query }

/-- Lines 163–166: req = callback(req), threading the pointer along the
chain; the final pointer is dropped when the director returns. -/
def runPreCallbacks (cbs : List RequestCallback) (r : Nat)
    (s : Store OutboundRequest) : Nat × Store OutboundRequest :=
  cbs.foldl (fun acc cb => cb acc.1 acc.2) (r, s)

/-- Lines 184–198 (ModifyResponse): resp = callback(resp, r), threading
the pointer along the chain; the final pointer is dropped when
ModifyResponse returns nil. -/
def runPostCallbacks (cbs : List ResponseCallback) (r : Nat)
    (s : Store BackendResponse) (inbound : InboundRequest) :
    Nat × Store BackendResponse :=
  cbs.foldl (fun acc cb => cb acc.1 acc.2 inbound) (r, s)

/-- Lines 176–181: a ResponseHeaderTimeout of Timeout milliseconds is
installed on the transport iff the configured timeout is positive. -/
def appliedTimeout (e : Endpoint) : Option Int :=
  if e.timeout > 0 then some e.timeout else none

/-- What the network does for one dispatch: a transport-level fault, or
response headers arriving after waitMs milliseconds. -/
inductive TransportEvent where
  | fault
  | headersAfter (waitMs : Nat) (resp : BackendResponse)

/-- Model of the stdlib round trip under the installed
ResponseHeaderTimeout: a fault is an error; headers arriving strictly
later than an installed deadline are an error; otherwise the response
comes back. -/
def dispatchResult (t : Option Int) (ev : TransportEvent) : Option BackendResponse :=
  match ev with
  | .fault => none
  | .headersAfter w resp =>
    match t with
    | none => some resp
    | some d => if (w : Int) > d then none else some resp

/-- The stdlib collaborators of the handler: net/url parsing, the
outbound request as produced by httputil.NewSingleHostReverseProxy's
director (a clone of the inbound request with scheme, host and path
rewritten to the backend origin), and the network. -/
structure HandlerEnv where
  parseURL : String → Option URLModel
  initialOutbound : InboundRequest → URLModel → OutboundRequest
  transport : OutboundRequest → TransportEvent

/-- The observable effects of one handler run: the final status written
to the caller, the number of backend dispatch attempts, the
RecordRequest calls (route path, method, status code) in order, the
request handed to the transport, and the response relayed. -/
structure HandlerTrace where
  statusCode : Nat
  backendCalls : Nat
  metricsRecorded : List (String × String × Nat)
  sentToBackend : Option OutboundRequest
  relayedToCaller : Option BackendResponse

/-- Line 95: the method filter check. -/
def methodRejected (e : Endpoint) (m : String) : Bool :=
  e.method != "" && m != e.method

/-- The outbound request actually handed to the transport: the object
designated by the reverse proxy's outbound-request pointer (reference 0)
after the director — the stdlib rewrite, req.Host, the handler's own
transform, then the pre-backend callback chain — has run.  The pointer
value the chain returns is dropped by the director (lines 121–174),
so what is sent is the final state of the original object. -/
def sentRequest (p : Proxy) (env : HandlerEnv) (r : InboundRequest)
    (backendURL : URLModel) : OutboundRequest :=
  (runPreCallbacks p.preBackendCallbacks 0
    ⟨[directorTransform p.endpoint r.path
        { env.initialOutbound r backendURL with host := backendURL.host }]⟩).2.get
    defaultOutboundRequest 0

/-- The response actually relayed to the caller: the object designated
by the reverse proxy's response pointer (reference 0) after the
post-backend callback chain inside ModifyResponse (lines 184–198) has
run; the pointer value the chain returns is dropped when ModifyResponse
returns. -/
def relayedResponse (p : Proxy) (r : InboundRequest) (resp : BackendResponse) :
    BackendResponse :=
  (runPostCallbacks p.postBackendCallbacks 0 ⟨[resp]⟩ r).2.get
    defaultBackendResponse 0

/-- The dispatched phase of the handler (lines 116–229): one transport
attempt; on error the handler writes 502 through the capture wrapper
(lines 201–208), on success it relays the post-processed response; in
either case the completion log line and — iff telemetry is non-nil —
exactly one RecordRequest call are emitted with the captured status. -/
def handlerDispatch (p : Proxy) (env : HandlerEnv) (r : InboundRequest)
    (backendURL : URLModel) : HandlerTrace :=
  match dispatchResult (appliedTimeout p.endpoint)
      (env.transport (sentRequest p env r backendURL)) with
  | none =>
    { statusCode := 502, backendCalls := 1,
      metricsRecorded :=
        if p.telemetryNonNil then [(p.endpoint.path, r.method, 502)] else [],
      sentToBackend := some (sentRequest p env r backendURL),
      relayedToCaller := none }
  | some resp =>
    { statusCode := (relayedResponse p r resp).statusCode, backendCalls := 1,
      metricsRecorded :=
        if p.telemetryNonNil
        then [(p.endpoint.path, r.method, (relayedResponse p r resp).statusCode)]
        else [],
      sentToBackend := some (sentRequest p env r backendURL),
      relayedToCaller := some (relayedResponse p r resp) }

/-- The handler returned by Proxy.Handler (part_002 lines 87–231), as a
function from the stdlib environment and the inbound request to the
trace of its observable effects.  The 405 branch (lines 95–103) and the
500 branch (lines 106–114) return before the response-capture wrapper
is created and before the telemetry block at lines 221–229 is reached;
only the dispatched phase logs a completion line and records metrics. -/
def handlerRun (p : Proxy) (env : HandlerEnv) (r : InboundRequest) : HandlerTrace :=
  if methodRejected p.endpoint r.method then
    { statusCode := 405, backendCalls := 0, metricsRecorded := [],
      sentToBackend := none, relayedToCaller := none }
  else
    match env.parseURL p.endpoint.backend with
    | none =>
      { statusCode := 500, backendCalls := 0, metricsRecorded := [],
        sentToBackend := none, relayedToCaller := none }
    | some backendURL => handlerDispatch p env r backendURL

/-! ## LoggingResponseWriter (src/unnamed/part_001 lines 33–62) -/

/-- The wrapper's own captured state: status code and body buffer. -/
structure LoggingResponseWriter where
  statusCode : Nat
  body : String

/-- NewLoggingResponseWriter (lines 60–62): the status starts at
http.StatusOK = 200 and the buffer empty. -/
def newLoggingResponseWriter : LoggingResponseWriter :=
  { statusCode := 200, body := "" }

/-- WriteHeader (lines 41–44): capture the code. -/
def LoggingResponseWriter.writeHeaderOp (l : LoggingResponseWriter) (code : Nat) :
    LoggingResponseWriter :=
  { l with statusCode := code }

/-- Write (lines 47–52): append to the buffer; the status is untouched. -/
def LoggingResponseWriter.writeOp (l : LoggingResponseWriter) (b : String) :
    LoggingResponseWriter :=
  { l with body := l.body ++ b }

/-- One call a handler can make on the wrapper. -/
inductive WriterOp where
  | header (code : Nat)
  | write (b : String)

def WriterOp.isWrite : WriterOp → Bool
  | .header _ => false
  | .write _ => true

/-- Replay a sequence of handler calls against the wrapper. -/
def runWriterOps (l : LoggingResponseWriter) : List WriterOp → LoggingResponseWriter
  | [] => l
  | .header c :: ops => runWriterOps (l.writeHeaderOp c) ops
  | .write b :: ops => runWriterOps (l.writeOp b) ops

/-! ## Gateway (src/unnamed/part_000) -/

/-- Gateway (lines 11–26): the path → proxy registration map. -/
structure Gateway where
  proxies : List (String × Proxy)

/-- Gateway.AddPreBackendCallback (lines 44–55): look the path up;
registered → append to that proxy's list; unregistered → only an error
log, no state change (the function is total, no panic). -/
def Gateway.addPreBackendCallback (g : Gateway) (path : String)
    (cb : RequestCallback) : Gateway :=
  match mapLookup g.proxies path with
  | some p => { proxies := mapSet g.proxies path (p.addPreBackendCallback cb) }
  | none => g

/-- Gateway.AddPostBackendCallback (lines 59–70): same shape. -/
def Gateway.addPostBackendCallback (g : Gateway) (path : String)
    (cb : ResponseCallback) : Gateway :=
  match mapLookup g.proxies path with
  | some p => { proxies := mapSet g.proxies path (p.addPostBackendCallback cb) }
  | none => g

/-! ## Concrete fixtures shared by witnesses and counterexamples -/

/-- A GET endpoint like the one in TestProxyHandlerDirectly. -/
def epGetW : Endpoint :=
  { path := "/test", method := "GET", backend := "http://backend.example",
    timeout := 1000, headers := [], queryParams := [], hasPathParams := false }

/-- An endpoint with no method filter and no timeout. -/
def epAnyW : Endpoint :=
  { path := "/any", method := "", backend := "http://backend.example",
    timeout := 0, headers := [], queryParams := [], hasPathParams := false }

def urlW : URLModel := { scheme := "http", host := "backend.example", path := "" }

def outW : OutboundRequest :=
  { method := "GET", host := "", path := "/test", query := [], headers := [] }

def respW : BackendResponse := { statusCode := 200, headers := [], body := "OK" }

/-- Environment whose backend answers immediately with respW. -/
def envOkW : HandlerEnv :=
  { parseURL := fun _ => some urlW,
    initialOutbound := fun _ _ => outW,
    transport := fun _ => .headersAfter 0 respW }

/-- Environment whose transport faults. -/
def envFaultW : HandlerEnv :=
  { parseURL := fun _ => some urlW,
    initialOutbound := fun _ _ => outW,
    transport := fun _ => .fault }

/-- Environment whose backend URL fails to parse. -/
def envParseFailW : HandlerEnv :=
  { parseURL := fun _ => none,
    initialOutbound := fun _ _ => outW,
    transport := fun _ => .headersAfter 0 respW }

/-- Environment whose backend takes 5000 ms to produce headers. -/
def envSlowW : HandlerEnv :=
  { parseURL := fun _ => some urlW,
    initialOutbound := fun _ _ => outW,
    transport := fun _ => .headersAfter 5000 respW }

def reqGetW : InboundRequest := { method := "GET", path := "/test" }

def reqPostW : InboundRequest := { method := "POST", path := "/test" }

/-- A gateway with one registered endpoint path. -/
def gwW : Gateway := { proxies := [("/test", newProxy epGetW false true)] }

/-- A parameterised endpoint like the one in TestProxyHandlerWithPathParams,
plus a configured query parameter. -/
def epParamW : Endpoint :=
  { path := "/api/users/:id", method := "GET",
    backend := "http://backend.example/api/users/:id", timeout := 1000,
    headers := [], queryParams := [("token", "secret")], hasPathParams := true }

/-- The same endpoint but with a query override colliding with the
extracted parameter name. -/
def epParamOverrideW : Endpoint :=
  { path := "/api/users/:id", method := "GET",
    backend := "http://backend.example/api/users/:id", timeout := 1000,
    headers := [], queryParams := [("id", "forced")], hasPathParams := true }

/-- The outbound request as the stdlib director would leave it for the
parameterised backend template. -/
def outParamW : OutboundRequest :=
  { method := "GET", host := "", path := "/api/users/:id", query := [],
    headers := [] }

/-- A replacement request distinguishable from the director's output. -/
def reqReplacementW : OutboundRequest :=
  { method := "REPLACED", host := "elsewhere", path := "/replaced", query := [],
    headers := [] }

/-- A replacement response distinguishable from the backend's. -/
def respReplacementW : BackendResponse :=
  { statusCode := 299, headers := [], body := "replaced" }

/-- A proxy whose single pre- and post-backend callbacks return freshly
allocated replacement objects without mutating their argument. -/
def proxyReplW : Proxy :=
  { endpoint := epAnyW, debug := false,
    preBackendCallbacks := [replaceReq reqReplacementW],
    postBackendCallbacks := [replaceResp respReplacementW],
    telemetryNonNil := false }

/-- The header-setting mutation of TestProxyHandlerWithPreBackendCallback. -/
def addHeaderF : OutboundRequest → OutboundRequest :=
  fun q => { q with headers := mapSet q.headers "X-Pre-Callback" "executed" }

/-- A response mutation that rewrites the status code. -/
def setStatus204 : BackendResponse → BackendResponse :=
  fun s => { s with statusCode := 204 }

/-- A proxy whose callbacks mutate their argument and return the same
pointer, like the repository's test callbacks. -/
def proxyMutW : Proxy :=
  { endpoint := epAnyW, debug := false,
    preBackendCallbacks := [mutateReq addHeaderF],
    postBackendCallbacks := [mutateResp setStatus204],
    telemetryNonNil := false }

/-! ## Map lemmas -/

theorem mapLookup_mapSet_self {α : Type} (m : List (String × α)) (k : String) (v : α) :
    mapLookup (mapSet m k v) k = some v := by
  induction m with
  | nil => simp [mapSet, mapLookup]
  | cons hd tl ih =>
    obtain ⟨k', v'⟩ := hd
    by_cases h : k' = k
    · simp [mapSet, mapLookup, h]
    · simp [mapSet, mapLookup, h, ih]

theorem mapLookup_mapSet_ne {α : Type} (m : List (String × α)) (k k' : String) (v : α)
    (h : k ≠ k') : mapLookup (mapSet m k' v) k = mapLookup m k := by
  induction m with
  | nil => simp [mapSet, mapLookup, Ne.symm h]
  | cons hd tl ih =>
    obtain ⟨k'', v''⟩ := hd
    by_cases hk : k'' = k'
    · subst hk
      simp [mapSet, mapLookup, Ne.symm h]
    · by_cases hk2 : k'' = k
      · subst hk2
        simp [mapSet, mapLookup, hk]
      · simp [mapSet, mapLookup, hk, hk2, ih]

theorem mapHasKey_mapSet {α : Type} (m : List (String × α)) (k q : String) (v : α) :
    mapHasKey (mapSet m k v) q = (decide (k = q) || mapHasKey m q) := by
  induction m with
  | nil => simp [mapSet, mapHasKey]
  | cons hd tl ih =>
    obtain ⟨k', v'⟩ := hd
    by_cases hk : k' = k
    · subst hk
      simp [mapSet, mapHasKey, ← Bool.or_assoc, Bool.or_self]
    · simp [mapSet, mapHasKey, hk, ih, Bool.or_left_comm]

theorem mapNodupKeys_mapSet {α : Type} (m : List (String × α)) (k : String) (v : α)
    (h : mapNodupKeys m = true) : mapNodupKeys (mapSet m k v) = true := by
  induction m with
  | nil => simp [mapSet, mapNodupKeys, mapHasKey]
  | cons hd tl ih =>
    obtain ⟨k', v'⟩ := hd
    simp [mapNodupKeys] at h
    by_cases hk : k' = k
    · subst hk
      simp [mapSet, mapNodupKeys, h.1, h.2]
    · simp [mapSet, mapNodupKeys, hk, mapHasKey_mapSet, ih h.2, h.1, Ne.symm hk]

/-- Folding Go map assignments over a list never touches keys the list
does not mention. -/
theorem foldl_mapSet_lookup_of_notmem {α : Type} (l : List (String × α)) :
    ∀ (q : List (String × α)) (k : String), mapHasKey l k = false →
      mapLookup (l.foldl (fun m kv => mapSet m kv.1 kv.2) q) k = mapLookup q k := by
  induction l with
  | nil => intro q k _; rfl
  | cons hd tl ih =>
    intro q k hk
    obtain ⟨k', v'⟩ := hd
    simp [mapHasKey] at hk
    rw [List.foldl_cons, ih _ _ hk.2, mapLookup_mapSet_ne _ _ _ _ (Ne.symm hk.1)]

/-- Folding Go map assignments over a duplicate-free map delivers every
one of its bindings. -/
theorem foldl_mapSet_lookup_of_mem {α : Type} (l : List (String × α)) :
    ∀ (q : List (String × α)) (k : String) (v : α),
      mapNodupKeys l = true → mapLookup l k = some v →
      mapLookup (l.foldl (fun m kv => mapSet m kv.1 kv.2) q) k = some v := by
  induction l with
  | nil => intro q k v _ h; simp [mapLookup] at h
  | cons hd tl ih =>
    intro q k v hnd h
    obtain ⟨k', v'⟩ := hd
    simp [mapNodupKeys] at hnd
    by_cases hk : k' = k
    · subst hk
      simp [mapLookup] at h
      subst h
      rw [List.foldl_cons, foldl_mapSet_lookup_of_notmem _ _ _ hnd.1,
        mapLookup_mapSet_self]
    · simp [mapLookup, hk] at h
      rw [List.foldl_cons]
      exact ih _ _ _ hnd.2 h

/-! ## Extraction lemmas -/

theorem extractZip_nil_right (ps : List (List Char)) (params : List (String × String)) :
    extractZip ps [] params = params := by
  cases ps <;> rfl

theorem drop_eq_getD_cons {α : Type} (d : α) :
    ∀ (l : List α) (i : Nat), i < l.length → l.drop i = l.getD i d :: l.drop (i + 1)
  | _ :: _, 0, _ => rfl
  | _ :: t, i + 1, h =>
    drop_eq_getD_cons d t i (Nat.lt_of_succ_lt_succ h)

theorem extractLoop_eq_extractZip (rs : List (List Char)) :
    ∀ (ps : List (List Char)) (i : Nat) (params : List (String × String)),
      extractLoop rs ps i params = extractZip ps (rs.drop i) params := by
  intro ps
  induction ps with
  | nil => intro i params; cases rs.drop i <;> rfl
  | cons seg rest ih =>
    intro i params
    by_cases hi : i < rs.length
    · rw [extractLoop, if_pos hi, ih, drop_eq_getD_cons [] rs i hi, extractZip]
    · have h1 : rs.drop i = [] :=
        List.drop_eq_nil_of_le (Nat.le_of_not_lt hi)
      have h2 : rs.drop (i + 1) = [] :=
        List.drop_eq_nil_of_le (Nat.le_succ_of_le (Nat.le_of_not_lt hi))
      rw [extractLoop, if_neg hi, ih, h1, h2, extractZip_nil_right,
        extractZip_nil_right]

/-- Segments past a name that is not captured later leave its binding
alone. -/
theorem extractZip_lookup_of_notmem (nm : String) :
    ∀ (ps rs : List (List Char)) (params : List (String × String)),
      nm ∉ captureNames ps →
      mapLookup (extractZip ps rs params) nm = mapLookup params nm := by
  intro ps
  induction ps with
  | nil => intro rs params _; rfl
  | cons seg rest ih =>
    intro rs params hnm
    cases rs with
    | nil => rw [extractZip_nil_right]
    | cons rseg rs' =>
      rw [extractZip]
      by_cases hcap : isCaptureSeg seg = true
      · have hcn : captureName seg = some (String.mk (seg.drop 1)) := by
          rw [captureName, if_pos hcap]
        simp only [captureNames, List.filterMap_cons, hcn, List.mem_cons,
          not_or] at hnm
        rw [if_pos hcap, ih _ _ hnm.2, mapLookup_mapSet_ne _ _ _ _ hnm.1]
      · have hcn : captureName seg = none := by
          rw [captureName, if_neg hcap]
        simp only [captureNames, List.filterMap_cons, hcn] at hnm
        rw [if_neg hcap]
        exact ih _ _ hnm

/-- At any capture position i, extraction binds the segment's name to
the request's position-i segment, provided no later capture segment
reuses the name (capture names pairwise distinct). -/
theorem extractZip_lookup_of_capture :
    ∀ (ps rs : List (List Char)) (i : Nat) (params : List (String × String)),
      (captureNames ps).Nodup →
      i < ps.length → i < rs.length →
      isCaptureSeg (ps.getD i []) = true →
      mapLookup (extractZip ps rs params) (String.mk ((ps.getD i []).drop 1)) =
        some (String.mk (rs.getD i [])) := by
  intro ps
  induction ps with
  | nil => intro rs i params _ hi _ _; simp at hi
  | cons seg rest ih =>
    intro rs i params hnd hi hir hcap
    cases rs with
    | nil => simp at hir
    | cons rseg rs' =>
      rw [extractZip]
      cases i with
      | zero =>
        simp only [List.getD_cons_zero] at hcap ⊢
        have hcn : captureName seg = some (String.mk (seg.drop 1)) := by
          rw [captureName, if_pos hcap]
        have hnotmem : String.mk (seg.drop 1) ∉ captureNames rest := by
          simp only [captureNames, List.filterMap_cons, hcn] at hnd
          exact (List.nodup_cons.mp hnd).1
        rw [if_pos hcap, extractZip_lookup_of_notmem _ _ _ _ hnotmem,
          mapLookup_mapSet_self]
      | succ j =>
        simp only [List.getD_cons_succ] at hcap ⊢
        have hnd' : (captureNames rest).Nodup := by
          by_cases hc : isCaptureSeg seg = true
          · have hcn : captureName seg = some (String.mk (seg.drop 1)) := by
              rw [captureName, if_pos hc]
            simp only [captureNames, List.filterMap_cons, hcn] at hnd
            exact (List.nodup_cons.mp hnd).2
          · have hcn : captureName seg = none := by rw [captureName, if_neg hc]
            simpa only [captureNames, List.filterMap_cons, hcn] using hnd
        exact ih _ j _ hnd' (Nat.lt_of_succ_lt_succ hi)
          (Nat.lt_of_succ_lt_succ hir) hcap

/-- Extraction reads the request segments only at capture positions:
two request-segment lists of the same length that agree wherever the
template captures produce identical parameter maps. -/
theorem extractZip_congr :
    ∀ (ps rs rs' : List (List Char)),
      rs.length = rs'.length →
      (∀ i, i < ps.length → isCaptureSeg (ps.getD i []) = true →
        rs.getD i [] = rs'.getD i []) →
      ∀ params, extractZip ps rs params = extractZip ps rs' params := by
  intro ps
  induction ps with
  | nil => intro rs rs' _ _ params; rfl
  | cons seg rest ih =>
    intro rs rs' hlen hagree params
    cases rs with
    | nil =>
      cases rs' with
      | nil => rfl
      | cons a b => simp at hlen
    | cons rseg rsa =>
      cases rs' with
      | nil => simp at hlen
      | cons rseg' rsb =>
        rw [extractZip, extractZip]
        have hagree' : ∀ i, i < rest.length → isCaptureSeg (rest.getD i []) = true →
            rsa.getD i [] = rsb.getD i [] := by
          intro i hi hc
          have := hagree (i + 1) (by simpa using Nat.succ_lt_succ hi)
            (by simpa only [List.getD_cons_succ] using hc)
          simpa only [List.getD_cons_succ] using this
        have hlen' : rsa.length = rsb.length := by simpa using hlen
        by_cases hcap : isCaptureSeg seg = true
        · have h0 : rseg = rseg' := by
            have := hagree 0 (by simp) (by simpa only [List.getD_cons_zero] using hcap)
            simpa only [List.getD_cons_zero] using this
          rw [if_pos hcap, if_pos hcap, h0]
          exact ih _ _ hlen' hagree' _
        · rw [if_neg hcap, if_neg hcap]
          exact ih _ _ hlen' hagree' _

/-- Extraction only ever builds the map by Go map assignment, so its
keys are pairwise distinct. -/
theorem extractZip_nodupKeys :
    ∀ (ps rs : List (List Char)) (params : List (String × String)),
      mapNodupKeys params = true → mapNodupKeys (extractZip ps rs params) = true := by
  intro ps
  induction ps with
  | nil => intro rs params h; exact h
  | cons seg rest ih =>
    intro rs params h
    cases rs with
    | nil => rw [extractZip_nil_right]; exact h
    | cons rseg rs' =>
      rw [extractZip]
      by_cases hcap : isCaptureSeg seg = true
      · rw [if_pos hcap]; exact ih _ _ (mapNodupKeys_mapSet _ _ _ h)
      · rw [if_neg hcap]; exact ih _ _ h

theorem extract_eq_extractZip (p r : String)
    (hlen : (segsOf p).length = (segsOf r).length) :
    extract p r = extractZip (segsOf p) (segsOf r) [] := by
  rw [extract, if_neg (not_not_intro hlen), extractLoop_eq_extractZip,
    List.drop_zero]

theorem extract_nodupKeys (p r : String) : mapNodupKeys (extract p r) = true := by
  rw [extract]
  by_cases h : (segsOf p).length ≠ (segsOf r).length
  · rw [if_pos h]; rfl
  · rw [if_neg h, extractLoop_eq_extractZip, List.drop_zero]
    exact extractZip_nodupKeys _ _ _ rfl

/-! ## Claim C3 -/

/-- Claim C3: for every template path and request path with equal
numbers of slash-separated segments, extraction binds each capture
segment's name (sigil stripped) to the request's same-position segment
unconditionally (stated for templates whose capture names are pairwise
distinct; a duplicated capture name is bound by its last occurrence),
and never compares literal segments: two request paths of the right
segment count that agree at the capture positions extract identically,
and in particular template /api/users/:id with request path
/api/other/123 still yields {id: "123"}. -/
theorem extract_ignores_literal_segments
    (p r r' : String)
    (hlen : (segsOf p).length = (segsOf r).length)
    (hlen' : (segsOf p).length = (segsOf r').length)
    (hagree : ∀ i, i < (segsOf p).length →
      isCaptureSeg ((segsOf p).getD i []) = true →
      (segsOf r).getD i [] = (segsOf r').getD i []) :
    extract p r = extract p r'
    ∧ (∀ i, (captureNames (segsOf p)).Nodup → i < (segsOf p).length →
        isCaptureSeg ((segsOf p).getD i []) = true →
        mapLookup (extract p r) (String.mk (((segsOf p).getD i []).drop 1)) =
          some (String.mk ((segsOf r).getD i [])))
    ∧ extract "/api/users/:id" "/api/other/123" = [("id", "123")] := by
  refine ⟨?_, ?_, by decide⟩
  · rw [extract_eq_extractZip p r hlen, extract_eq_extractZip p r' hlen']
    exact extractZip_congr _ _ _ (by omega) hagree _
  · intro i hnd hi hcap
    rw [extract_eq_extractZip p r hlen]
    exact extractZip_lookup_of_capture _ _ i _ hnd hi (by omega) hcap

/-- Witness for C3 at template /api/users/:id, request /api/other/123,
second request /api/xyzzy/123: the capture at position 3 binds id to
123 even though the literal segments differ. -/
theorem extract_ignores_literal_segments_witness :
    extract "/api/users/:id" "/api/other/123" = extract "/api/users/:id" "/api/xyzzy/123"
    ∧ mapLookup (extract "/api/users/:id" "/api/other/123") "id" = some "123" := by
  have h := extract_ignores_literal_segments "/api/users/:id" "/api/other/123"
    "/api/xyzzy/123" (by decide) (by decide) (by decide)
  refine ⟨h.1, ?_⟩
  have hb := h.2.1 3 (by decide) (by decide) (by decide)
  have e1 : String.mk (((segsOf "/api/users/:id").getD 3 []).drop 1) = "id" := by decide
  have e2 : String.mk ((segsOf "/api/other/123").getD 3 []) = "123" := by decide
  rw [e1, e2] at hb
  exact hb

/-! ## Claim C4 -/

/-- Claim C4: when the template path and the request path have
different segment counts, extraction returns the empty mapping — the
"no match" signal is the absence of parameters; the function is total
with no error outcome in its type, so no explicit error is ever
signalled. -/
theorem extract_count_mismatch_empty (p r : String)
    (h : (segsOf p).length ≠ (segsOf r).length) :
    extract p r = [] := by
  rw [extract, if_pos h]

/-- Witness for C4 at template /api/users/:id and request
/api/users/123/extra. -/
theorem extract_count_mismatch_empty_witness :
    (segsOf "/api/users/:id").length ≠ (segsOf "/api/users/123/extra").length
    ∧ extract "/api/users/:id" "/api/users/123/extra" = [] := by
  refine ⟨by decide, ?_⟩
  exact extract_count_mismatch_empty _ _ (by decide)

/-! ## Claim C5 -/

/-- Claim C5: an endpoint with a non-empty method filter answers every
request of a different method with 405 and performs zero backend
dispatches; with an empty filter the method check never fires, so any
method is accepted into the pipeline. -/
theorem method_filter_semantics
    (p : Proxy) (env : HandlerEnv) (r : InboundRequest) :
    (p.endpoint.method ≠ "" → r.method ≠ p.endpoint.method →
      (handlerRun p env r).statusCode = 405 ∧ (handlerRun p env r).backendCalls = 0)
    ∧ (p.endpoint.method = "" → methodRejected p.endpoint r.method = false) := by
  constructor
  · intro h1 h2
    have hm : methodRejected p.endpoint r.method = true := by
      simp [methodRejected, bne_iff_ne]
      exact ⟨h1, h2⟩
    simp [handlerRun, hm]
  · intro h
    simp [methodRejected, h]

/-- Witness for C5: a GET-only endpoint rejects a POST with 405 and no
backend call; an endpoint with an empty filter never trips the check. -/
theorem method_filter_semantics_witness :
    ((handlerRun (newProxy epGetW false true) envOkW reqPostW).statusCode = 405
      ∧ (handlerRun (newProxy epGetW false true) envOkW reqPostW).backendCalls = 0)
    ∧ methodRejected (newProxy epAnyW false true).endpoint reqPostW.method = false :=
  ⟨(method_filter_semantics (newProxy epGetW false true) envOkW reqPostW).1
      (by decide) (by decide),
    (method_filter_semantics (newProxy epAnyW false true) envOkW reqPostW).2 rfl⟩

/-! ## Claim C6 -/

/-- Claim C6: a request that reaches the URL-parse step (i.e. passes
the method filter, which the pipeline runs first) against an endpoint
whose backend URL template fails to parse is answered with 500 and
zero backend calls. -/
theorem invalid_backend_url_500
    (p : Proxy) (env : HandlerEnv) (r : InboundRequest)
    (hm : methodRejected p.endpoint r.method = false)
    (hu : env.parseURL p.endpoint.backend = none) :
    (handlerRun p env r).statusCode = 500 ∧ (handlerRun p env r).backendCalls = 0 := by
  simp [handlerRun, hm, hu]

/-- Witness for C6: a GET request to a GET endpoint whose backend
template does not parse. -/
theorem invalid_backend_url_500_witness :
    (handlerRun (newProxy epGetW false true) envParseFailW reqGetW).statusCode = 500
    ∧ (handlerRun (newProxy epGetW false true) envParseFailW reqGetW).backendCalls = 0 :=
  invalid_backend_url_500 _ _ _ (by decide) rfl

/-! ## Claim C8 -/

/-- Claim C8: a response-header timeout is installed on the transport
iff the endpoint's configured timeout is positive (non-positive means
no timeout), the installed deadline is the configured value in
milliseconds, and — for a request that passes the method filter and
URL parse — a transport-level fault, or response headers taking
strictly longer than an installed deadline, are answered with 502. -/
theorem timeout_and_transport_502
    (p : Proxy) (env : HandlerEnv) (r : InboundRequest)
    (hm : methodRejected p.endpoint r.method = false)
    (hu : ∃ u, env.parseURL p.endpoint.backend = some u) :
    ((appliedTimeout p.endpoint).isSome ↔ 0 < p.endpoint.timeout)
    ∧ (∀ d, appliedTimeout p.endpoint = some d → d = p.endpoint.timeout)
    ∧ ((∀ q, env.transport q = .fault) → (handlerRun p env r).statusCode = 502)
    ∧ (∀ (w : Nat) (resp : BackendResponse) (d : Int),
        (∀ q, env.transport q = .headersAfter w resp) →
        appliedTimeout p.endpoint = some d → d < (w : Int) →
        (handlerRun p env r).statusCode = 502) := by
  obtain ⟨u, hu⟩ := hu
  refine ⟨?_, ?_, ?_, ?_⟩
  · rw [appliedTimeout]
    by_cases h : p.endpoint.timeout > 0 <;> simp [h]
  · intro d hd
    rw [appliedTimeout] at hd
    by_cases h : p.endpoint.timeout > 0
    · rw [if_pos h] at hd
      exact (Option.some_inj.mp hd).symm
    · rw [if_neg h] at hd
      exact absurd hd (by simp)
  · intro hf
    simp [handlerRun, hm, hu, handlerDispatch, hf, dispatchResult]
  · intro w resp d hev hd hlt
    simp [handlerRun, hm, hu, handlerDispatch, hev, dispatchResult, hd, hlt]

/-- Witness for C8: the 1000 ms endpoint has a timeout installed; a
faulting transport yields 502; headers after 5000 ms against the
1000 ms deadline yield 502. -/
theorem timeout_and_transport_502_witness :
    ((appliedTimeout (newProxy epGetW false true).endpoint).isSome ↔
      0 < (newProxy epGetW false true).endpoint.timeout)
    ∧ (handlerRun (newProxy epGetW false true) envFaultW reqGetW).statusCode = 502
    ∧ (handlerRun (newProxy epGetW false true) envSlowW reqGetW).statusCode = 502 := by
  have h1 := timeout_and_transport_502 (newProxy epGetW false true) envFaultW reqGetW
    (by decide) ⟨urlW, rfl⟩
  have h2 := timeout_and_transport_502 (newProxy epGetW false true) envSlowW reqGetW
    (by decide) ⟨urlW, rfl⟩
  exact ⟨h1.1, h1.2.2.1 (fun q => rfl),
    h2.2.2.2 5000 respW 1000 (fun q => rfl) (by decide) (by decide)⟩

/-! ## Claim C1 -/

/-- Claim C1 is false on the code: in the Rejected (405) outcome the
handler returns at line 102, before the telemetry block at lines
221–229, so RecordRequest is called zero times — not exactly once with
status 405 — even though telemetry is configured. -/
theorem record_request_counterexample :
    (newProxy epGetW false true).telemetryNonNil = true
    ∧ (handlerRun (newProxy epGetW false true) envOkW reqPostW).statusCode = 405
    ∧ (handlerRun (newProxy epGetW false true) envOkW reqPostW).metricsRecorded = [] := by
  exact ⟨rfl, by decide, by decide⟩

/-- Claim C1 amended: RecordRequest is called exactly once, after the
outcome is final and carrying the final status code, for every request
that passes the method filter and the backend-URL parse (the Relayed
and transport-failure 502 outcomes) when the telemetry collaborator is
configured; in the Rejected (405) and invalid-backend-URL (500)
outcomes the handler returns early and RecordRequest is not called at
all. -/
theorem record_request_amended
    (p : Proxy) (env : HandlerEnv) (r : InboundRequest)
    (hm : methodRejected p.endpoint r.method = false)
    (hu : ∃ u, env.parseURL p.endpoint.backend = some u)
    (ht : p.telemetryNonNil = true) :
    (handlerRun p env r).metricsRecorded =
      [(p.endpoint.path, r.method, (handlerRun p env r).statusCode)]
    ∧ (∀ (p' : Proxy) (env' : HandlerEnv) (r' : InboundRequest),
        methodRejected p'.endpoint r'.method = true →
        (handlerRun p' env' r').metricsRecorded = [])
    ∧ (∀ (p' : Proxy) (env' : HandlerEnv) (r' : InboundRequest),
        methodRejected p'.endpoint r'.method = false →
        env'.parseURL p'.endpoint.backend = none →
        (handlerRun p' env' r').metricsRecorded = []) := by
  obtain ⟨u, hu⟩ := hu
  refine ⟨?_, ?_, ?_⟩
  · rw [handlerRun]
    simp only [hm, Bool.false_eq_true, if_false, hu]
    rw [handlerDispatch]
    cases dispatchResult (appliedTimeout p.endpoint)
        (env.transport (sentRequest p env r u)) with
    | none => simp [ht]
    | some resp => simp [ht]
  · intro p' env' r' hrej
    simp [handlerRun, hrej]
  · intro p' env' r' hok hnone
    simp [handlerRun, hok, hnone]

/-- Witness for the amended C1: with telemetry configured, a relayed
request records exactly one sample carrying the final status. -/
theorem record_request_amended_witness :
    (handlerRun (newProxy epGetW false true) envOkW reqGetW).metricsRecorded =
      [((newProxy epGetW false true).endpoint.path, reqGetW.method,
        (handlerRun (newProxy epGetW false true) envOkW reqGetW).statusCode)] :=
  (record_request_amended (newProxy epGetW false true) envOkW reqGetW
    (by decide) ⟨urlW, rfl⟩ rfl).1

/-! ## Claim C10 -/

/-- Replaying only Write calls never moves the captured status. -/
theorem runWriterOps_status_of_no_header (ops : List WriterOp) :
    ∀ l : LoggingResponseWriter, (∀ op ∈ ops, op.isWrite = true) →
      (runWriterOps l ops).statusCode = l.statusCode := by
  induction ops with
  | nil => intro l _; rfl
  | cons op rest ih =>
    intro l hall
    cases op with
    | header c =>
      have hh := hall (WriterOp.header c) (List.mem_cons_self _ _)
      simp [WriterOp.isWrite] at hh
    | write b =>
      rw [runWriterOps, ih _ (fun o ho => hall o (by simp [ho]))]
      rfl

/-- Claim C10: the capture wrapper's status code is initialised to 200
by NewLoggingResponseWriter and is changed by WriteHeader alone — Write
only appends to the body buffer — so a handler that writes a body
without ever calling WriteHeader reports status 200 to the logging and
metrics collaborators. -/
theorem capture_status_defaults_to_200 (ops : List WriterOp)
    (hw : ∀ op ∈ ops, op.isWrite = true) :
    newLoggingResponseWriter.statusCode = 200
    ∧ (∀ (l : LoggingResponseWriter) (b : String),
        (l.writeOp b).statusCode = l.statusCode)
    ∧ (∀ (l : LoggingResponseWriter) (c : Nat),
        (l.writeHeaderOp c).statusCode = c)
    ∧ (runWriterOps newLoggingResponseWriter ops).statusCode = 200 := by
  refine ⟨rfl, fun l b => rfl, fun l c => rfl, ?_⟩
  rw [runWriterOps_status_of_no_header ops _ hw]
  rfl

/-- Witness for C10: two body writes and no WriteHeader report 200. -/
theorem capture_status_defaults_to_200_witness :
    (runWriterOps newLoggingResponseWriter
      [WriterOp.write "hello", WriterOp.write " world"]).statusCode = 200 :=
  (capture_status_defaults_to_200
    [WriterOp.write "hello", WriterOp.write " world"] (by decide)).2.2.2

/-! ## Claim C9 -/

/-- Claim C9: adding a pre- or post-backend callback for a path with no
registered endpoint is a no-op: the gateway value is returned unchanged
(so every registered endpoint's callback lists are unchanged), and both
operations are total functions of the gateway — no panic is possible. -/
theorem add_callback_unknown_path_noop
    (g : Gateway) (path : String)
    (cb : RequestCallback) (cb' : ResponseCallback)
    (h : mapLookup g.proxies path = none) :
    g.addPreBackendCallback path cb = g
    ∧ g.addPostBackendCallback path cb' = g := by
  constructor
  · simp only [Gateway.addPreBackendCallback, h]
  · simp only [Gateway.addPostBackendCallback, h]

/-- Witness for C9: a gateway with only /test registered is unchanged
by callback registrations against /nope. -/
theorem add_callback_unknown_path_noop_witness :
    mapLookup gwW.proxies "/nope" = none
    ∧ gwW.addPreBackendCallback "/nope" (mutateReq id) = gwW
    ∧ gwW.addPostBackendCallback "/nope" (mutateResp id) = gwW := by
  have h := add_callback_unknown_path_noop gwW "/nope" (mutateReq id) (mutateResp id) rfl
  exact ⟨rfl, h.1, h.2⟩

/-! ## Claim C7 -/

/-- The path half of the interleaved parameter loop is a pure fold of
textual replacements. -/
theorem foldl_paramStep_fst (l : List (String × String)) :
    ∀ (a : List Char) (b : List (String × String)),
      (l.foldl paramStep (a, b)).1 =
        l.foldl (fun s kv => replaceAll s (':' :: kv.1.toList) kv.2.toList) a := by
  induction l with
  | nil => intro a b; rfl
  | cons hd tl ih =>
    intro a b
    simp only [List.foldl_cons, paramStep]
    exact ih _ _

/-- The query half of the interleaved parameter loop is a pure fold of
Go map assignments. -/
theorem foldl_paramStep_snd (l : List (String × String)) :
    ∀ (a : List Char) (b : List (String × String)),
      (l.foldl paramStep (a, b)).2 =
        l.foldl (fun m kv => mapSet m kv.1 kv.2) b := by
  induction l with
  | nil => intro a b; rfl
  | cons hd tl ih =>
    intro a b
    simp only [List.foldl_cons, paramStep]
    exact ih _ _

/-- Claim C7: for an endpoint with the has-parameters flag set, the
director transform (i) rewrites the outbound path by folding, over the
extracted parameters in extraction order, the textual replacement of
every ":"+name occurrence (path half of dual delivery); (ii) sets every
extracted parameter as an outbound query parameter, so one whose name
the endpoint's query overrides do not mention survives to the final
query (query half of dual delivery); and (iii) force-sets every
endpoint-configured query parameter afterwards, overwriting any
same-named value set from an extracted parameter. -/
theorem dual_delivery_and_query_override
    (e : Endpoint) (inboundPath : String) (req : OutboundRequest)
    (hpp : e.hasPathParams = true) :
    ((directorTransform e inboundPath req).path =
      String.mk ((e.extractPathParams inboundPath).foldl
        (fun s kv => replaceAll s (':' :: kv.1.toList) kv.2.toList)
        req.path.toList))
    ∧ (∀ k v, mapLookup (e.extractPathParams inboundPath) k = some v →
        mapHasKey e.queryParams k = false →
        mapLookup (directorTransform e inboundPath req).query k = some v)
    ∧ (∀ k w, mapNodupKeys e.queryParams = true →
        mapLookup e.queryParams k = some w →
        mapLookup (directorTransform e inboundPath req).query k = some w) := by
  have hnd : mapNodupKeys (e.extractPathParams inboundPath) = true :=
    extract_nodupKeys e.path inboundPath
  refine ⟨?_, ?_, ?_⟩
  · simp only [directorTransform, hpp, if_true, foldl_paramStep_fst]
  · intro k v hv hq
    simp only [directorTransform, hpp, if_true, foldl_paramStep_snd]
    rw [foldl_mapSet_lookup_of_notmem _ _ _ hq]
    exact foldl_mapSet_lookup_of_mem _ _ _ _ hnd hv
  · intro k w hndq hw
    simp only [directorTransform, hpp, if_true]
    exact foldl_mapSet_lookup_of_mem _ _ _ _ hndq hw

/-- Witness for C7 at endpoint /api/users/:id and request
/api/users/123: the extracted id reaches the query when not overridden,
and an endpoint query override with the same name wins. -/
theorem dual_delivery_and_query_override_witness :
    ((directorTransform epParamW "/api/users/123" outParamW).path =
      String.mk ((epParamW.extractPathParams "/api/users/123").foldl
        (fun s kv => replaceAll s (':' :: kv.1.toList) kv.2.toList)
        outParamW.path.toList))
    ∧ mapLookup (directorTransform epParamW "/api/users/123" outParamW).query "id" =
        some "123"
    ∧ mapLookup
        (directorTransform epParamOverrideW "/api/users/123" outParamW).query "id" =
        some "forced" := by
  have h1 := dual_delivery_and_query_override epParamW "/api/users/123" outParamW rfl
  have h2 := dual_delivery_and_query_override epParamOverrideW "/api/users/123"
    outParamW rfl
  exact ⟨h1.1, h1.2.1 "id" "123" (by decide) (by decide),
    h2.2.2 "id" "forced" (by decide) (by decide)⟩

/-! ## Claim C2 -/

/-- Running a chain of purely mutating callbacks on a one-object store
leaves the pointer at the original object and accumulates the
mutations in place. -/
theorem runPreCallbacks_mutate (fs : List (OutboundRequest → OutboundRequest)) :
    ∀ x : OutboundRequest,
      runPreCallbacks (fs.map mutateReq) 0 ⟨[x]⟩ =
        (0, ⟨[fs.foldl (fun q f => f q) x]⟩) := by
  induction fs with
  | nil => intro x; rfl
  | cons f tl ih =>
    intro x
    rw [List.map_cons, runPreCallbacks, List.foldl_cons]
    exact ih (f x)

/-- Post-backend version of runPreCallbacks_mutate. -/
theorem runPostCallbacks_mutate (gs : List (BackendResponse → BackendResponse))
    (inbound : InboundRequest) :
    ∀ x : BackendResponse,
      runPostCallbacks (gs.map mutateResp) 0 ⟨[x]⟩ inbound =
        (0, ⟨[gs.foldl (fun q g => g q) x]⟩) := by
  induction gs with
  | nil => intro x; rfl
  | cons g tl ih =>
    intro x
    rw [List.map_cons, runPostCallbacks, List.foldl_cons]
    exact ih (g x)

/-- Claim C2 is false on the code.  The Director runs the pre-backend
chain as req = callback(req) on its local parameter, and ModifyResponse
does the same for resp; a callback that returns a freshly allocated
replacement instead of mutating its argument therefore has its return
value dropped when the chain ends: the transport is handed the
original, director-transformed request — not the replacement the last
callback returned — and the caller is relayed the original backend
response.  The first two conjuncts exhibit that the callback did
return a pointer to the replacement object. -/
theorem callback_replacement_dropped_counterexample :
    ((runPreCallbacks proxyReplW.preBackendCallbacks 0
        ⟨[{ outW with host := urlW.host }]⟩).1 = 1)
    ∧ ((runPreCallbacks proxyReplW.preBackendCallbacks 0
        ⟨[{ outW with host := urlW.host }]⟩).2.get defaultOutboundRequest 1 =
        reqReplacementW)
    ∧ (handlerRun proxyReplW envOkW reqGetW).sentToBackend ≠ some reqReplacementW
    ∧ (handlerRun proxyReplW envOkW reqGetW).sentToBackend =
        some { outW with host := urlW.host }
    ∧ (handlerRun proxyReplW envOkW reqGetW).relayedToCaller ≠ some respReplacementW
    ∧ (handlerRun proxyReplW envOkW reqGetW).relayedToCaller = some respW := by
  exact ⟨by decide, by decide, by decide, by decide, by decide, by decide⟩

/-- Claim C2 amended: each callback in a non-empty chain receives the
object the previous callback returned (replacements do propagate along
the chain, and the appended last callback is applied to the prior
chain's result), but what is actually sent to the backend — and what is
actually relayed to the caller — is the final state of the original
object the proxy machinery allocated (reference 0); a replacement
returned by the last callback is dropped.  Consequently, when every
callback mutates its argument and returns it, the accumulated mutations
are exactly what is sent (pre) and relayed (post). -/
theorem callback_chain_semantics
    (p : Proxy) (env : HandlerEnv) (r : InboundRequest) (u : URLModel)
    (hm : methodRejected p.endpoint r.method = false)
    (hu : env.parseURL p.endpoint.backend = some u) :
    (∀ (cbs : List RequestCallback) (cb : RequestCallback) (ref : Nat)
        (s : Store OutboundRequest),
      runPreCallbacks (cbs ++ [cb]) ref s =
        cb (runPreCallbacks cbs ref s).1 (runPreCallbacks cbs ref s).2)
    ∧ (∀ (cbs : List ResponseCallback) (cb : ResponseCallback) (ref : Nat)
        (s : Store BackendResponse),
      runPostCallbacks (cbs ++ [cb]) ref s r =
        cb (runPostCallbacks cbs ref s r).1 (runPostCallbacks cbs ref s r).2 r)
    ∧ (handlerRun p env r).sentToBackend =
        some ((runPreCallbacks p.preBackendCallbacks 0
          ⟨[directorTransform p.endpoint r.path
              { env.initialOutbound r u with host := u.host }]⟩).2.get
          defaultOutboundRequest 0)
    ∧ (∀ fs : List (OutboundRequest → OutboundRequest),
        p.preBackendCallbacks = fs.map mutateReq →
        (handlerRun p env r).sentToBackend =
          some (fs.foldl (fun q f => f q)
            (directorTransform p.endpoint r.path
              { env.initialOutbound r u with host := u.host })))
    ∧ (∀ (gs : List (BackendResponse → BackendResponse)) (resp : BackendResponse),
        p.postBackendCallbacks = gs.map mutateResp →
        dispatchResult (appliedTimeout p.endpoint)
            (env.transport (sentRequest p env r u)) = some resp →
        (handlerRun p env r).relayedToCaller =
          some (gs.foldl (fun q g => g q) resp)) := by
  have hrun : handlerRun p env r = handlerDispatch p env r u := by
    simp [handlerRun, hm, hu]
  refine ⟨?_, ?_, ?_, ?_, ?_⟩
  · intro cbs cb ref s
    simp [runPreCallbacks, List.foldl_append]
  · intro cbs cb ref s
    simp [runPostCallbacks, List.foldl_append]
  · rw [hrun, handlerDispatch]
    cases dispatchResult (appliedTimeout p.endpoint)
        (env.transport (sentRequest p env r u)) with
    | none => rfl
    | some resp => rfl
  · intro fs hfs
    rw [hrun, handlerDispatch]
    cases dispatchResult (appliedTimeout p.endpoint)
        (env.transport (sentRequest p env r u)) with
    | none =>
      show some (sentRequest p env r u) = _
      rw [sentRequest, hfs, runPreCallbacks_mutate]
      rfl
    | some resp =>
      show some (sentRequest p env r u) = _
      rw [sentRequest, hfs, runPreCallbacks_mutate]
      rfl
  · intro gs resp hgs hdisp
    rw [hrun, handlerDispatch, hdisp]
    show some (relayedResponse p r resp) = _
    rw [relayedResponse, hgs, runPostCallbacks_mutate]
    rfl

/-- Witness for the amended C2: with the mutating test callbacks, the
request sent carries the header the pre callback set, and the response
relayed carries the status the post callback set. -/
theorem callback_chain_semantics_witness :
    (handlerRun proxyMutW envOkW reqGetW).sentToBackend =
      some ([addHeaderF].foldl (fun q f => f q)
        (directorTransform proxyMutW.endpoint reqGetW.path
          { envOkW.initialOutbound reqGetW urlW with host := urlW.host }))
    ∧ (handlerRun proxyMutW envOkW reqGetW).relayedToCaller =
      some ([setStatus204].foldl (fun q g => g q) respW) := by
  have h := callback_chain_semantics proxyMutW envOkW reqGetW urlW (by decide) rfl
  exact ⟨h.2.2.2.1 [addHeaderF] rfl, h.2.2.2.2 [setStatus204] respW rfl (by decide)⟩

end Surfboard
